import Mathlib

/-!
Verification of the core of the `tiled` map-decoding library.

The Go source is shallowly embedded: `uint32` values are `Nat` with explicit
`% 2 ^ 32` where overflow matters, Go pointers that may be `nil` are `Option`,
fallible functions return `Except String`, and the in-place mutation performed
by `decodeTileDefs` / `UnmarshalXML` is modelled by explicit state passing
(a function from the pre-state record to the post-state record).
-/

deriving instance DecidableEq for Except

namespace Tiled

/-- Embeds the fields of Go `Image` (image.go) that the core logic reads. -/
structure Image where
  source : String
  width : Int
  height : Int
deriving DecidableEq

/-- Embeds the fields of Go `Tile` (tileset.go) that the core logic reads:
`TileID` (a `uint32`) and the optional `Image` pointer. -/
structure Tile where
  tileID : Nat
  image : Option Image
deriving DecidableEq

/-- Embeds the fields of Go `Tileset` (tileset.go) that the core logic reads:
`FirstGlobalID` (a `GlobalID`, i.e. `uint32`), `Source`, `Name`, the optional
`Image` pointer and the optional `Tiles` slice pointer. -/
structure Tileset where
  firstGlobalID : Nat
  source : String
  name : String
  image : Option Image
  tiles : Option (List Tile)
deriving DecidableEq

/-- Go constant `TileFlippedHorizontally = 0x80000000` (src/unnamed/part_000). -/
def TileFlippedHorizontally : Nat := 0x80000000

/-- Go constant `TileFlippedVertically = 0x40000000` (src/unnamed/part_000). -/
def TileFlippedVertically : Nat := 0x40000000

/-- Go constant `TileFlippedDiagonally = 0x20000000` (src/unnamed/part_000). -/
def TileFlippedDiagonally : Nat := 0x20000000

/-- Go constant `TileFlipped = TileFlippedHorizontally | TileFlippedVertically | TileFlippedDiagonally`. -/
def TileFlipped : Nat := TileFlippedHorizontally ||| TileFlippedVertically ||| TileFlippedDiagonally

/-- Embeds Go `GlobalID.BareID`: `uint32(g &^ TileFlipped)` (src/unnamed/part_000).
A `GlobalID` is a `uint32`, hence the `% 2 ^ 32`; Go `&^ TileFlipped` on a
`uint32` is bitwise AND with the 32-bit complement `0xFFFFFFFF ^^^ TileFlipped`. -/
def bareID (g : Nat) : Nat := (g % 2 ^ 32) &&& (0xFFFFFFFF ^^^ TileFlipped)

/-- Embeds Go `GlobalID.IsFlippedHorizontally`: `g & TileFlippedHorizontally != 0`. -/
def isFlippedHorizontally (g : Nat) : Bool := (g % 2 ^ 32) &&& TileFlippedHorizontally != 0

/-- Embeds Go `GlobalID.IsFlippedVertically`: `g & TileFlippedVertically != 0`. -/
def isFlippedVertically (g : Nat) : Bool := (g % 2 ^ 32) &&& TileFlippedVertically != 0

/-- Embeds Go `GlobalID.IsFlippedDiagonally`: `g & TileFlippedDiagonally != 0`. -/
def isFlippedDiagonally (g : Nat) : Bool := (g % 2 ^ 32) &&& TileFlippedDiagonally != 0

/-- Embeds Go `GlobalID.TileID`: `TileID(g.BareID() - uint32(t.FirstGlobalID))`
(src/unnamed/part_000); the subtraction is `uint32` subtraction, i.e. wraps
modulo `2 ^ 32`. -/
def tileLocalID (g : Nat) (ts : Tileset) : Nat :=
  (bareID g + (2 ^ 32 - ts.firstGlobalID % 2 ^ 32)) % 2 ^ 32

/-- Embeds the tileset scan loop of Go `decodeTileDefs` (map.go lines 114-122):
`for _, i := range *tss { t := i; if bid < uint32(t.FirstGlobalID) { break }; ts = t }`,
with the loop variable `ts` (best candidate so far) passed as `acc`. -/
def resolveTilesetGo (bid : Nat) (acc : Option Tileset) : List Tileset → Option Tileset
  | [] => acc
  | t :: rest => if bid < t.firstGlobalID then acc else resolveTilesetGo bid (some t) rest

/-- The tileset scan of Go `decodeTileDefs` started from `var ts *Tileset` (nil). -/
def resolveTileset (bid : Nat) (tss : List Tileset) : Option Tileset :=
  resolveTilesetGo bid none tss

/-- Embeds Go `TileDef` (src/unnamed/part_000): nil marker, tileset-local ID,
original GlobalID, owning tileset pointer, optional tile pointer, flip flags. -/
structure TileDef where
  nil : Bool
  id : Nat
  globalID : Nat
  tileSet : Option Tileset
  tile : Option Tile
  horizontallyFlipped : Bool
  verticallyFlipped : Bool
  diagonallyFlipped : Bool
deriving DecidableEq

/-- Go `&TileDef{Nil: true}`: all other fields at their zero values. -/
def nilTileDef : TileDef :=
  { nil := true, id := 0, globalID := 0, tileSet := none, tile := none
    horizontallyFlipped := false, verticallyFlipped := false, diagonallyFlipped := false }

/-- Embeds Go `Tiles.WithID` (tileset.go): first tile whose `TileID` equals `id`,
`none` if absent. -/
def tilesWithID (tiles : List Tile) (id : Nat) : Option Tile :=
  tiles.find? (fun t => t.tileID == id)

/-- Embeds the per-reference loop body of Go `decodeTileDefs` (map.go lines
106-143) as a pure function from the decoded reference list and the tileset
list to the emitted `TileDef` list: a zero bare ID emits the nil marker,
otherwise the owning tileset is resolved (error `ErrNoSuitableTileset` if the
scan found none), the local ID is computed, and the optional `Tile` is looked
up when the tileset declares explicit tiles. Go appends each `TileDef` in
order and returns the error immediately, so the delivered result is either the
full list or the error. -/
def buildTileDefs : List Nat → List Tileset → Except String (List TileDef)
  | [], _ => .ok []
  | g :: rest, tss =>
    let bid := bareID g
    if bid = 0 then
      match buildTileDefs rest tss with
      | .error e => .error e
      | .ok tds => .ok (nilTileDef :: tds)
    else
      match resolveTileset bid tss with
      | none => .error ("no suitable Tileset found for tile, with global ID " ++ toString g)
      | some ts =>
        let id := tileLocalID g ts
        let tile := match ts.tiles with
          | some tiles => tilesWithID tiles id
          | none => none
        match buildTileDefs rest tss with
        | .error e => .error e
        | .ok tds =>
          .ok ({ nil := false, id := id, globalID := g, tileSet := some ts, tile := tile
                 horizontallyFlipped := isFlippedHorizontally g
                 verticallyFlipped := isFlippedVertically g
                 diagonallyFlipped := isFlippedDiagonally g } :: tds)

/-- Embeds Go `Data` (src/unnamed/part_000): encoding tag, compression tag and
the raw inner bytes (held as a string; the Go field is `[]byte` of text). -/
structure Data where
  encoding : String
  compression : String
  rawBytes : String
deriving DecidableEq

/-- Embeds the fields of Go `TileLayer` (src/unnamed/part_000) that the core
logic reads or writes. `tileGlobalRefs` is the decoded `TileGlobalRefs` slice
(each entry the `GlobalID`, a `uint32`), `tileDefs` the resolved slice. -/
structure TileLayer where
  id : String
  name : String
  width : Int
  height : Int
  properties : List (String × String)
  rawData : Option Data
  tileGlobalRefs : List Nat
  tileDefs : List TileDef
deriving DecidableEq

/-- Embeds the state effect of Go `decodeTileDefs` (map.go lines 105-147) on
its layer argument: on success the built `TileDef`s are appended to
`l.TileDefs` and `l.TileGlobalRefs` is set to `nil` (`// Release memory`);
no other field of the layer is written. -/
def decodeTileDefsLayer (l : TileLayer) (tss : List Tileset) : Except String TileLayer :=
  match buildTileDefs l.tileGlobalRefs tss with
  | .error e => .error e
  | .ok tds => .ok { l with tileDefs := l.tileDefs ++ tds, tileGlobalRefs := [] }

/-- Outcome of a Go tile-def accessor: a returned `*TileDef`, a returned
error, or a runtime panic (out-of-range slice index). -/
inductive GetTileDefResult where
  | ok (td : TileDef)
  | err (msg : String)
  | panic
deriving DecidableEq

/-- Embeds Go `TileLayer.GetTileDefAtIndex` (src/unnamed/part_000 lines 68-73):
the bound check is `index < 0 || index >= int(l.Width*l.Height)`; after it the
code returns `l.TileDefs[index]`, which panics when `index` is not below
`len(l.TileDefs)`. -/
def GetTileDefAtIndex (l : TileLayer) (index : Int) : GetTileDefResult :=
  if index < 0 ∨ index ≥ l.width * l.height then
    .err ("failed to get tile def out of bounds: index: " ++ toString index)
  else if h : index.toNat < l.tileDefs.length then
    .ok (l.tileDefs.get ⟨index.toNat, h⟩)
  else
    .panic

/-- Embeds Go `TileLayer.GetTileDefAtPosition` (src/unnamed/part_000 lines
59-66): delegates to `GetTileDefAtIndex((row * int(l.Width)) + col)` and
rewraps a returned error with the row/col context. -/
def GetTileDefAtPosition (l : TileLayer) (row col : Int) : GetTileDefResult :=
  match GetTileDefAtIndex l (row * l.width + col) with
  | .ok td => .ok td
  | .err _ =>
    .err ("failed to get tile def out of bounds: row: " ++ toString row ++ ", col: " ++ toString col)
  | .panic => .panic

/-- Models Go `unicode.IsSpace` on the ASCII white space characters
(space, tab, newline, vertical tab, form feed, carriage return). -/
def isSpaceChar (c : Char) : Bool :=
  c == ' ' || c == '\t' || c == '\n' || c == '\x0b' || c == '\x0c' || c == '\r'

/-- Models Go `strings.TrimSpace`: drop white space from both ends. -/
def trimGo (cs : List Char) : List Char :=
  ((cs.dropWhile isSpaceChar).reverse.dropWhile isSpaceChar).reverse

/-- Models Go `strings.Split(s, sep)` for a one-character separator: `acc`
holds the (reversed) characters of the token being accumulated. -/
def splitGo (sep : Char) : List Char → List Char → List (List Char)
  | [], acc => [acc.reverse]
  | c :: cs, acc =>
    if c == sep then acc.reverse :: splitGo sep cs [] else splitGo sep cs (c :: acc)

/-- Embeds Go `strconv.ParseUint(s, 10, 32)` on an already-trimmed token:
succeeds exactly on a non-empty string of decimal digits whose value fits in
32 bits (signs, blanks and any other characters are rejected; overflow is
rejected). -/
def parseUint32 (cs : List Char) : Option Nat :=
  if cs ≠ [] ∧ cs.all (fun c => c.isDigit) then
    let v := cs.foldl (fun acc c => acc * 10 + (c.toNat - 48)) 0
    if v < 2 ^ 32 then some v else none
  else none

/-- Embeds the loop of the `"csv"` case of Go `decodeLayerData`
(src/unnamed/part_000 lines 209-219): each comma-separated token is trimmed
and parsed with `strconv.ParseUint(·, 10, 32)`; the first failing token makes
the whole decode return that error, otherwise the parsed values are delivered
in order. -/
def csvGo : List (List Char) → Except String (List Nat)
  | [] => .ok []
  | s :: rest =>
    match parseUint32 (trimGo s) with
    | none => .error ("invalid syntax: " ++ String.mk s)
    | some v =>
      match csvGo rest with
      | .error e => .error e
      | .ok vs => .ok (v :: vs)

/-- Embeds the encoding switch of Go `decodeLayerData` (src/unnamed/part_000
lines 158-227) as a function from the layer's `Data` to the decoded reference
list delivered on success. The `"base64"` arm depends on the external
base64/zlib/gzip/zstd codecs and is taken as the parameter `base64Arm`; the
`"csv"` arm splits `RawBytes` on `","` and runs the parse loop (it never reads
the compression tag); the empty encoding decodes nothing; any other tag fails
with `ErrUnsupportedEncoding`. -/
def decodeLayerData (base64Arm : Data → Except String (List Nat)) (d : Data) :
    Except String (List Nat) :=
  if d.encoding = "base64" then base64Arm d
  else if d.encoding = "csv" then csvGo (splitGo ',' d.rawBytes.data [])
  else if d.encoding = "" then .ok []
  else .error ("invalid encoding: " ++ d.encoding)

/-- Embeds the fields of Go `Object` (image.go) read by the template merge.
The Go `float32` fields (`X`, `Y`, `Width`, `Height`, `Rotation`) only ever
compare against zero and are assigned from other such fields here, so they are
carried as `Int`; pointers are `Option`. -/
structure Object where
  objectID : Nat
  name : String
  type : String
  x : Int
  y : Int
  width : Int
  height : Int
  rotation : Int
  visible : Bool
  template : String
  globalID : Nat
  properties : Option (List (String × String))
  image : Option Image
  polygon : Option String
  polyline : Option String
  text : Option String
  point : Option Unit
  ellipse : Option Unit
deriving DecidableEq

/-- Embeds Go `Template` (image.go): the decoded external template document. -/
structure Template where
  tileSet : Option Tileset
  object : Option Object
deriving DecidableEq

/-- Embeds the merge phase of Go `Object.UnmarshalXML` (image.go lines
254-335) for an object carrying a template reference. `tmp` is the decoded
referencing object (the Go code runs `*o = (Object)(tmp)` first, so `o`
starts equal to `tmp`); `tpl` is the external template decoded into the local
variable `template`. The Go merge then executes, in order, one conditional
assignment per field, each reading its default-check from the current `o` and
its replacement value from `tmp` — including the quirk that the `Polyline`
assignment is guarded by `o.Polygon == nil`. The decoded `template` variable
is never read by any of them. -/
def objectUnmarshalMerge (tmp : Object) (_tpl : Template) : Object :=
  let o := tmp
  let o := if o.name = "" then { o with name := tmp.name } else o
  let o := if o.type = "" then { o with type := tmp.type } else o
  let o := if o.x = 0 then { o with x := tmp.x } else o
  let o := if o.y = 0 then { o with y := tmp.y } else o
  let o := if o.width = 0 then { o with width := tmp.width } else o
  let o := if o.height = 0 then { o with height := tmp.height } else o
  let o := if o.rotation = 0 then { o with rotation := tmp.rotation } else o
  let o := if o.visible = false then { o with visible := tmp.visible } else o
  let o := if o.globalID = 0 then { o with globalID := tmp.globalID } else o
  let o := if o.properties = none then { o with properties := tmp.properties } else o
  let o := if o.image = none then { o with image := tmp.image } else o
  let o := if o.polygon = none then { o with polygon := tmp.polygon } else o
  let o := if o.polygon = none then { o with polyline := tmp.polyline } else o
  let o := if o.text = none then { o with text := tmp.text } else o
  let o := if o.ellipse = none then { o with ellipse := tmp.ellipse } else o
  let o := if o.point = none then { o with point := tmp.point } else o
  o

/-- Embeds the external-reference phase of Go `Tileset.UnmarshalXML`
(tileset.go lines 249-311). `ref` is the referencing record as decoded from
the map document (Go saves `firstGlobalID := tmp.FirstGlobalID` from it);
`ext` is the content of `tmp` after the external document has been decoded
over it. If the referencing record has no `Source` it is returned as is.
Otherwise the external record replaces it, except that a nonzero saved
`FirstGlobalID` is written back; then, if the result still has no image, the
declared tiles are scanned for the first one carrying an image, which is
adopted, and a decode error is raised when there is no such tile (or no tiles
at all). -/
def tilesetUnmarshalMerge (ref ext : Tileset) : Except String Tileset :=
  if ref.source = "" then .ok ref
  else
    let t := if ref.firstGlobalID ≠ 0 then { ext with firstGlobalID := ref.firstGlobalID } else ext
    if t.image.isSome then .ok t
    else
      match t.tiles with
      | none => .error "failed to decode tileset: tileset or tiles missing source image"
      | some tiles =>
        match tiles.find? (fun tile => tile.image.isSome) with
        | some tile => .ok { t with image := tile.image }
        | none => .error "failed to decode tileset: tileset or tiles missing source image"

/-- Embeds the package-level mutable state of the Go library: the global
`var ResourcePath = ""` (src/unnamed/part_001 line 117). -/
structure GoGlobalState where
  resourcePath : String
deriving DecidableEq

/-- Models Go `filepath.Join(dir, file)` on already-clean inputs:
`Join("", f) = f` and `Join(d, f) = d ++ "/" ++ f` for nonempty `d`. -/
def pathJoin (dir file : String) : String :=
  if dir = "" then file else dir ++ "/" ++ file

/-- Concatenate path components with a separator character. -/
def joinWith (sep : Char) : List (List Char) → List Char
  | [] => []
  | [s] => s
  | s :: rest => s ++ sep :: joinWith sep rest

/-- Models Go `filepath.Dir(path)` on already-clean slash-separated paths:
everything before the final separator, `"."` when there is none. -/
def dirOf (path : String) : String :=
  let comps := splitGo '/' path.data []
  if comps.length ≤ 1 then "." else String.mk (joinWith '/' comps.dropLast)

/-- Embeds the state effect of Go `New` (src/unnamed/part_001 line 141) on the
global: `ResourcePath = filepath.Dir(path)`. -/
def newEffect (path : String) (st : GoGlobalState) : GoGlobalState :=
  { st with resourcePath := dirOf path }

/-- Embeds the path computation shared by Go `Tileset.UnmarshalXML`
(tileset.go line 264) and `Object.UnmarshalXML` (image.go line 268):
`filepath.Join(ResourcePath, source)`, reading the ambient global. -/
def externalRefPath (st : GoGlobalState) (source : String) : String :=
  pathJoin st.resourcePath source

/-- The external document obtained for a relative reference: the file system
is abstracted as a map from paths to parsed tileset documents, and the opened
path is the one computed from the ambient global `ResourcePath`. -/
def loadExternalTileset (fs : String → Option Tileset) (st : GoGlobalState)
    (source : String) : Option Tileset :=
  fs (externalRefPath st source)

/-- The sortedness invariant `sort.Sort(byFirstGlobalID(*t.Tilesets))`
establishes before any resolution (map.go line 65, tileset.go lines 14-18):
ascending by `FirstGlobalID`. -/
def fgidSorted (tss : List Tileset) : Prop :=
  tss.Pairwise (fun a b => a.firstGlobalID ≤ b.firstGlobalID)

instance (tss : List Tileset) : Decidable (fgidSorted tss) := by
  unfold fgidSorted; infer_instance

/-- The three-tileset collection of the spec's resolution example, with
`FirstGlobalID`s `[1, 10, 50]`. -/
def exTilesets : List Tileset :=
  [ { firstGlobalID := 1, source := "", name := "a", image := none, tiles := none }
  , { firstGlobalID := 10, source := "", name := "b", image := none, tiles := none }
  , { firstGlobalID := 50, source := "", name := "c", image := none, tiles := none } ]

/-- A fully-populated layer: width 4, height 3, twelve resolved `TileDef`s. -/
def cl : TileLayer :=
  { id := "1", name := "L", width := 4, height := 3, properties := []
    rawData := none, tileGlobalRefs := []
    tileDefs := (List.range 12).map (fun k => { nilTileDef with id := k }) }

/-- A layer whose `TileDefs` slice is shorter than `width * height`
(e.g. empty encoding with no pre-parsed children): no defs at all. -/
def pl : TileLayer :=
  { id := "2", name := "P", width := 4, height := 3, properties := []
    rawData := none, tileGlobalRefs := [], tileDefs := [] }

/-- A one-cell layer holding one raw (nil) tile reference, not yet resolved. -/
def wl : TileLayer :=
  { id := "3", name := "W", width := 1, height := 1, properties := [("k", "v")]
    rawData := none, tileGlobalRefs := [0], tileDefs := [] }

/-- The layer `wl` after resolution: the nil def delivered, the raw refs cleared. -/
def wl' : TileLayer := { wl with tileDefs := [nilTileDef], tileGlobalRefs := [] }

/-- A file system holding two distinct external tileset documents under the
same relative name in two different directories. -/
def exFS : String → Option Tileset := fun p =>
  if p = "a/t.tsx" then some { firstGlobalID := 7, source := "", name := "ta", image := none, tiles := none }
  else if p = "b/t.tsx" then some { firstGlobalID := 8, source := "", name := "tb", image := none, tiles := none }
  else none

/-- An object record with no name that carries a template reference. -/
def exObjNoName : Object :=
  { objectID := 3, name := "", type := "", x := 0, y := 0, width := 0, height := 0
    rotation := 0, visible := false, template := "obj.tx", globalID := 0
    properties := none, image := none, polygon := none, polyline := none
    text := none, point := none, ellipse := none }

/-- A template whose object declares `name="Default"`. -/
def exTemplate : Template :=
  { tileSet := none
    object := some { exObjNoName with name := "Default", template := "" } }

/-- A tileset record with explicit `firstGlobalID=5` referencing an external document. -/
def refTs : Tileset :=
  { firstGlobalID := 5, source := "ext.tsx", name := "", image := none, tiles := none }

/-- The external tileset document, declaring its own start `1` and an image. -/
def extTs : Tileset :=
  { firstGlobalID := 1, source := "", name := "ext"
    image := some { source := "img.png", width := 32, height := 32 }, tiles := none }

/-! ## Theorems -/

/-- Structure eta for `Object`: the constructor applied to the projections of
`o` is `o`. -/
theorem Object.eta (o : Object) :
    Object.mk o.objectID o.name o.type o.x o.y o.width o.height o.rotation o.visible
      o.template o.globalID o.properties o.image o.polygon o.polyline o.text o.point
      o.ellipse = o := rfl

/-- `BareID` is reduction modulo `2 ^ 29`: the AND mask `&^ TileFlipped`
keeps exactly the low 29 bits. -/
theorem bareID_eq_mod (g : Nat) : bareID g = g % 2 ^ 29 := by
  have hmask : (0xFFFFFFFF ^^^ TileFlipped) = 2 ^ 29 - 1 := by decide
  rw [bareID, hmask, Nat.and_pow_two_sub_one_eq_mod,
    Nat.mod_mod_of_dvd g (Nat.pow_dvd_pow 2 (by norm_num))]

/-- `% 2 ^ k` distributes over bitwise or. -/
theorem lor_mod_two_pow (a b k : Nat) : (a ||| b) % 2 ^ k = a % 2 ^ k ||| b % 2 ^ k := by
  apply Nat.eq_of_testBit_eq
  intro i
  simp [Nat.testBit_mod_two_pow, Nat.testBit_or, Bool.and_or_distrib_left]

/-- Oring flag bits (multiples of `2 ^ 29`) onto a 29-bit value and reducing
modulo `2 ^ 29` recovers the value. -/
theorem flag_lor_mod (F n : Nat) (hF : F % 2 ^ 29 = 0) (h : n < 2 ^ 29) :
    (F ||| n) % 2 ^ 29 = n := by
  rw [lor_mod_two_pow, hF, Nat.mod_eq_of_lt h]
  simp

/-- Claim C7: for every `n < 2 ^ 29`, `BareID` applied to `n` with any
combination of the horizontal, vertical and diagonal flip bits set (in
particular all three) returns exactly `n`; `BareID` masks off precisely the
top three bits of the 32-bit value and leaves the low 29 bits unchanged. -/
theorem bareid_masks_flags (n : Nat) (h : n < 2 ^ 29) :
    (∀ a b c : Bool,
      bareID ((cond a TileFlippedHorizontally 0 ||| cond b TileFlippedVertically 0 |||
        cond c TileFlippedDiagonally 0) ||| n) = n) ∧
    bareID (TileFlippedHorizontally ||| TileFlippedVertically ||| TileFlippedDiagonally ||| n) = n ∧
    (∀ g : Nat, bareID g = g % 2 ^ 29) := by
  refine ⟨?_, ?_, fun g => bareID_eq_mod g⟩
  · intro a b c
    rw [bareID_eq_mod]
    apply flag_lor_mod _ _ _ h
    cases a <;> cases b <;> cases c <;> decide
  · rw [bareID_eq_mod]
    exact flag_lor_mod _ _ (by decide) h

/-- Witness for C7 at `n = 5`. -/
theorem bareid_masks_flags_witness :
    5 < 2 ^ 29 ∧
    bareID (TileFlippedHorizontally ||| TileFlippedVertically ||| TileFlippedDiagonally ||| 5) = 5 :=
  ⟨by norm_num, (bareid_masks_flags 5 (by norm_num)).2.1⟩

/-- Claim C6: a raw GlobalID whose bare ID is zero makes the builder emit the
nil-marker `TileDef` for that cell, whatever the flag bits; it does so even
with an empty tileset collection (where resolution would necessarily fail),
and in any position of the reference list. -/
theorem bare_zero_yields_nil (g : Nat) (tss : List Tileset) (h : bareID g = 0) :
    buildTileDefs [g] tss = .ok [nilTileDef] ∧
    buildTileDefs [g] [] = .ok [nilTileDef] ∧
    ∀ rest, buildTileDefs (g :: rest) tss =
      (buildTileDefs rest tss).map (fun tds => nilTileDef :: tds) := by
  refine ⟨by simp [buildTileDefs, h], by simp [buildTileDefs, h], ?_⟩
  intro rest
  cases hb : buildTileDefs rest tss <;> simp [buildTileDefs, h, hb, Except.map]

/-- Witness for C6 at the GlobalID `0x80000000` (only the horizontal flip bit
set), with no tilesets at all. -/
theorem bare_zero_yields_nil_witness :
    bareID 0x80000000 = 0 ∧ buildTileDefs [0x80000000] [] = .ok [nilTileDef] :=
  ⟨by decide, (bare_zero_yields_nil 0x80000000 [] (by decide)).1⟩

/-- If every tileset starts above the target the scan returns its accumulator
unchanged (it breaks at the first entry). -/
theorem resolveGo_all_gt (bid : Nat) (acc : Option Tileset) (tss : List Tileset)
    (h : ∀ t ∈ tss, bid < t.firstGlobalID) : resolveTilesetGo bid acc tss = acc := by
  cases tss with
  | nil => rfl
  | cons t rest => simp [resolveTilesetGo, h t (by simp)]

/-- On a sorted collection containing some tileset with start not above the
target, the scan returns the last such tileset: a member whose start is
maximal among those `≤` the target. -/
theorem resolveGo_found (bid : Nat) :
    ∀ (tss : List Tileset), fgidSorted tss → ∀ (acc : Option Tileset),
    (∃ t ∈ tss, t.firstGlobalID ≤ bid) →
    ∃ ts, resolveTilesetGo bid acc tss = some ts ∧ ts ∈ tss ∧ ts.firstGlobalID ≤ bid ∧
      ∀ t ∈ tss, t.firstGlobalID ≤ bid → t.firstGlobalID ≤ ts.firstGlobalID := by
  intro tss
  induction tss with
  | nil => intro _ acc h; simp at h
  | cons t rest ih =>
    intro hs acc hex
    have hpair := List.pairwise_cons.mp hs
    have hhead : ∀ b ∈ rest, t.firstGlobalID ≤ b.firstGlobalID := hpair.1
    have hrest : fgidSorted rest := hpair.2
    have htle : t.firstGlobalID ≤ bid := by
      obtain ⟨w, hw, hwle⟩ := hex
      rcases List.mem_cons.mp hw with h1 | h2
      · exact h1 ▸ hwle
      · exact le_trans (hhead w h2) hwle
    have hnotlt : ¬ bid < t.firstGlobalID := not_lt.mpr htle
    rw [resolveTilesetGo, if_neg hnotlt]
    by_cases hr : ∃ b ∈ rest, b.firstGlobalID ≤ bid
    · obtain ⟨ts, h1, h2, h3, h4⟩ := ih hrest (some t) hr
      refine ⟨ts, h1, List.mem_cons_of_mem _ h2, h3, ?_⟩
      intro x hx hxle
      rcases List.mem_cons.mp hx with e | m
      · exact e ▸ hhead ts h2
      · exact h4 x m hxle
    · have hgt : ∀ b ∈ rest, bid < b.firstGlobalID :=
        fun b hb => not_le.mp (fun hble => hr ⟨b, hb, hble⟩)
      rw [resolveGo_all_gt bid (some t) rest hgt]
      refine ⟨t, rfl, by simp, htle, ?_⟩
      intro x hx hxle
      rcases List.mem_cons.mp hx with e | m
      · exact e ▸ le_refl _
      · exact absurd hxle (not_le.mpr (hgt x m))

/-- Claim C1: on a collection sorted ascending by `FirstGlobalID`, the scan
of `decodeTileDefs` resolves a bare ID `b > 0` to the tileset whose
`FirstGlobalID` is the greatest value `≤ b`, and yields no tileset exactly
when no tileset has `FirstGlobalID ≤ b`; in particular with starts
`[1, 10, 50]`, bare ID 9 resolves to start 1, 49 to start 10, and 0 finds no
tileset (`ErrNoSuitableTileset`). -/
theorem tileset_resolution (b : Nat) (tss : List Tileset) (hs : fgidSorted tss)
    (hb : 0 < b) :
    ((∀ ts, resolveTileset b tss = some ts →
        ts ∈ tss ∧ ts.firstGlobalID ≤ b ∧
        ∀ t ∈ tss, t.firstGlobalID ≤ b → t.firstGlobalID ≤ ts.firstGlobalID) ∧
     (resolveTileset b tss = none ↔ ¬ ∃ t ∈ tss, t.firstGlobalID ≤ b)) ∧
    (resolveTileset 9 exTilesets =
      some { firstGlobalID := 1, source := "", name := "a", image := none, tiles := none } ∧
     resolveTileset 49 exTilesets =
      some { firstGlobalID := 10, source := "", name := "b", image := none, tiles := none } ∧
     resolveTileset 0 exTilesets = none) := by
  refine ⟨⟨?_, ?_, ?_⟩, by decide, by decide, by decide⟩
  · intro ts hts
    by_cases hex : ∃ t ∈ tss, t.firstGlobalID ≤ b
    · obtain ⟨ts', h1, h2, h3, h4⟩ := resolveGo_found b tss hs none hex
      rw [resolveTileset, h1] at hts
      injection hts with h5
      exact h5 ▸ ⟨h2, h3, h4⟩
    · have := resolveGo_all_gt b none tss
        (fun t ht => not_le.mp (fun hle => hex ⟨t, ht, hle⟩))
      rw [resolveTileset, this] at hts
      exact Option.noConfusion hts
  · intro hn hex
    obtain ⟨ts', h1, _⟩ := resolveGo_found b tss hs none hex
    rw [resolveTileset, h1] at hn
    exact Option.noConfusion hn
  · intro hng
    rw [resolveTileset]
    exact resolveGo_all_gt b none tss
      (fun t ht => not_le.mp (fun hle => hng ⟨t, ht, hle⟩))

/-- Witness for C1 on the `[1, 10, 50]` collection at bare ID 9. -/
theorem tileset_resolution_witness :
    fgidSorted exTilesets ∧ 0 < 9 ∧
    resolveTileset 9 exTilesets =
      some { firstGlobalID := 1, source := "", name := "a", image := none, tiles := none } :=
  ⟨by decide, by decide, (tileset_resolution 9 exTilesets (by decide) (by decide)).2.1⟩

/-- When every token parses, the csv loop delivers exactly the parsed values
in order. -/
theorem csvGo_ok (ts : List (List Char))
    (h : ∀ s ∈ ts, (parseUint32 (trimGo s)).isSome) :
    csvGo ts = .ok (ts.map (fun s => (parseUint32 (trimGo s)).getD 0)) := by
  induction ts with
  | nil => rfl
  | cons s rest ih =>
    obtain ⟨v, hv⟩ := Option.isSome_iff_exists.mp (h s (by simp))
    simp [csvGo, hv, ih (fun x hx => h x (List.mem_cons_of_mem _ hx))]

/-- When some token fails to parse, the csv loop returns an error. -/
theorem csvGo_err (ts : List (List Char))
    (h : ∃ s ∈ ts, parseUint32 (trimGo s) = none) :
    ∃ e, csvGo ts = .error e := by
  induction ts with
  | nil => simp at h
  | cons s rest ih =>
    cases hp : parseUint32 (trimGo s) with
    | none => exact ⟨"invalid syntax: " ++ String.mk s, by simp [csvGo, hp]⟩
    | some v =>
      obtain ⟨w, hw, hwn⟩ := h
      rcases List.mem_cons.mp hw with e | m
      · exact absurd (e ▸ hwn) (by simp [hp])
      · obtain ⟨e', he'⟩ := ih ⟨w, m, hwn⟩
        exact ⟨e', by simp [csvGo, hp, he']⟩

/-- Claim C4: with encoding `"csv"` the layer payload is decoded as a
comma-separated list of decimal unsigned 32-bit integers — the compression
tag is never read — and one non-numeric token makes the whole decode return
an error, delivering no value list at all. -/
theorem csv_decoding (base64Arm : Data → Except String (List Nat)) (d : Data)
    (he : d.encoding = "csv") :
    (∀ c : String,
      decodeLayerData base64Arm { d with compression := c } = decodeLayerData base64Arm d) ∧
    ((∀ s ∈ splitGo ',' d.rawBytes.data [], (parseUint32 (trimGo s)).isSome) →
      decodeLayerData base64Arm d =
        .ok ((splitGo ',' d.rawBytes.data []).map (fun s => (parseUint32 (trimGo s)).getD 0))) ∧
    ((∃ s ∈ splitGo ',' d.rawBytes.data [], parseUint32 (trimGo s) = none) →
      ∃ e, decodeLayerData base64Arm d = .error e) := by
  refine ⟨?_, ?_, ?_⟩
  · intro c; simp [decodeLayerData, he]
  · intro hall
    simp [decodeLayerData, he, csvGo_ok _ hall]
  · intro hex
    obtain ⟨e, hee⟩ := csvGo_err _ hex
    exact ⟨e, by simp [decodeLayerData, he, hee]⟩

/-- Witness for C4 on the payload `"1, 2,3"` (with a compression tag present,
which is ignored). -/
theorem csv_decoding_witness :
    (Data.mk "csv" "zlib" "1, 2,3").encoding = "csv" ∧
    decodeLayerData (fun _ => .ok []) (Data.mk "csv" "zlib" "1, 2,3") = .ok [1, 2, 3] := by
  refine ⟨rfl, ?_⟩
  have h := (csv_decoding (fun _ => .ok []) (Data.mk "csv" "zlib" "1, 2,3") rfl).2.1 (by decide)
  rw [h]
  decide

/-- Claim C5: on a layer whose `TileDefs` slice has exactly `width * height`
entries, `GetTileDefAtIndex i` succeeds exactly when `0 ≤ i < width * height`
and returns the out-of-bounds error otherwise, and `GetTileDefAtPosition row
col` returns exactly the defs `GetTileDefAtIndex (row * width + col)`
returns, failing exactly when that flat index is outside the extent. -/
theorem get_tiledef_bounds (l : TileLayer)
    (hlen : (l.tileDefs.length : Int) = l.width * l.height) :
    (∀ i : Int, (∃ td, GetTileDefAtIndex l i = .ok td) ↔ 0 ≤ i ∧ i < l.width * l.height) ∧
    (∀ i : Int, ¬ (0 ≤ i ∧ i < l.width * l.height) →
      GetTileDefAtIndex l i = .err ("failed to get tile def out of bounds: index: " ++ toString i)) ∧
    (∀ row col : Int,
      (∀ td, GetTileDefAtPosition l row col = .ok td ↔
        GetTileDefAtIndex l (row * l.width + col) = .ok td) ∧
      ((∃ m, GetTileDefAtPosition l row col = .err m) ↔
        ¬ (0 ≤ row * l.width + col ∧ row * l.width + col < l.width * l.height))) := by
  have hidx : ∀ i : Int, 0 ≤ i → i < l.width * l.height → i.toNat < l.tileDefs.length := by
    intro i h0 hlt; omega
  refine ⟨?_, ?_, ?_⟩
  · intro i
    constructor
    · rintro ⟨td, htd⟩
      by_contra hc
      rw [GetTileDefAtIndex, if_pos (by omega)] at htd
      exact GetTileDefResult.noConfusion htd
    · rintro ⟨h0, hlt⟩
      exact ⟨_, by rw [GetTileDefAtIndex, if_neg (by omega), dif_pos (hidx i h0 hlt)]⟩
  · intro i hni
    rw [GetTileDefAtIndex, if_pos (by omega)]
  · intro row col
    constructor
    · intro td
      constructor
      · intro h
        cases heq : GetTileDefAtIndex l (row * l.width + col) with
        | ok td' =>
          rw [GetTileDefAtPosition, heq] at h
          injection h with h'
          rw [h']
        | err m => rw [GetTileDefAtPosition, heq] at h; exact GetTileDefResult.noConfusion h
        | panic => rw [GetTileDefAtPosition, heq] at h; exact GetTileDefResult.noConfusion h
      · intro h
        rw [GetTileDefAtPosition, h]
    · constructor
      · rintro ⟨m, hm⟩ hin
        have hok : GetTileDefAtIndex l (row * l.width + col) =
            .ok (l.tileDefs.get ⟨(row * l.width + col).toNat, hidx _ hin.1 hin.2⟩) := by
          rw [GetTileDefAtIndex, if_neg (by omega), dif_pos (hidx _ hin.1 hin.2)]
        rw [GetTileDefAtPosition, hok] at hm
        exact GetTileDefResult.noConfusion hm
      · intro hout
        have herr : GetTileDefAtIndex l (row * l.width + col) =
            .err ("failed to get tile def out of bounds: index: " ++ toString (row * l.width + col)) := by
          rw [GetTileDefAtIndex, if_pos (by omega)]
        exact ⟨_, by rw [GetTileDefAtPosition, herr]⟩

/-- Witness for C5 on a 4×3 layer with 12 resolved defs: index 11 succeeds
and equals position (2,3); index 12 and position (3,0) both fail. -/
theorem get_tiledef_bounds_witness :
    ((cl.tileDefs.length : Int) = cl.width * cl.height) ∧
    (∃ td, GetTileDefAtIndex cl 11 = .ok td) ∧
    GetTileDefAtPosition cl 2 3 = GetTileDefAtIndex cl 11 ∧
    GetTileDefAtIndex cl 12 = .err "failed to get tile def out of bounds: index: 12" ∧
    GetTileDefAtPosition cl 3 0 = .err "failed to get tile def out of bounds: row: 3, col: 0" :=
  ⟨by decide, ((get_tiledef_bounds cl (by decide)).1 11).mpr (by decide),
    by decide, by decide, by decide⟩

/-- Claim C10: the index check of `GetTileDefAtIndex` uses only the declared
`width * height`, never `len(TileDefs)`: whenever the slice is shorter than
the declared extent, any index from the slice length up to the extent panics
(out-of-range slice access) instead of returning the out-of-bounds error; the
accessor is panic-free exactly under the precondition
`len(TileDefs) = width * height`. -/
theorem index_check_ignores_tiledefs_len (l : TileLayer) :
    (∀ i : Int, (l.tileDefs.length : Int) ≤ i → i < l.width * l.height →
      GetTileDefAtIndex l i = .panic) ∧
    ((l.tileDefs.length : Int) = l.width * l.height →
      ∀ i : Int, GetTileDefAtIndex l i ≠ .panic) := by
  constructor
  · intro i hlen hlt
    rw [GetTileDefAtIndex, if_neg (by omega), dif_neg (by omega)]
  · intro hlen i
    rw [GetTileDefAtIndex]
    by_cases hc : i < 0 ∨ i ≥ l.width * l.height
    · rw [if_pos hc]; exact fun h => GetTileDefResult.noConfusion h
    · rw [if_neg hc, dif_pos (by omega)]; exact fun h => GetTileDefResult.noConfusion h

/-- Witness for C10: a 4×3 layer with an empty `TileDefs` slice panics at
index 0 (which is inside the declared extent). -/
theorem index_check_ignores_tiledefs_len_witness :
    ((pl.tileDefs.length : Int) ≤ 0) ∧ ((0 : Int) < pl.width * pl.height) ∧
    GetTileDefAtIndex pl 0 = .panic :=
  ⟨by decide, by decide, (index_check_ignores_tiledefs_len pl).1 0 (by decide) (by decide)⟩

/-- Claim C9: when `decodeTileDefs` returns successfully the layer's raw
decoded tile-ID sequence `TileGlobalRefs` is cleared, and the layer's other
fields (width, height, name, properties) are unchanged. -/
theorem raw_refs_cleared (l : TileLayer) (tss : List Tileset) (l' : TileLayer)
    (h : decodeTileDefsLayer l tss = .ok l') :
    l'.tileGlobalRefs = [] ∧ l'.width = l.width ∧ l'.height = l.height ∧
    l'.name = l.name ∧ l'.properties = l.properties := by
  rw [decodeTileDefsLayer] at h
  cases hb : buildTileDefs l.tileGlobalRefs tss with
  | error e => rw [hb] at h; exact Except.noConfusion h
  | ok tds =>
    rw [hb] at h
    injection h with h'
    exact h' ▸ ⟨rfl, rfl, rfl, rfl, rfl⟩

/-- Witness for C9 on a one-cell layer holding one nil reference. -/
theorem raw_refs_cleared_witness :
    decodeTileDefsLayer wl [] = .ok wl' ∧
    (wl'.tileGlobalRefs = [] ∧ wl'.width = wl.width ∧ wl'.height = wl.height ∧
     wl'.name = wl.name ∧ wl'.properties = wl.properties) :=
  ⟨by decide, raw_refs_cleared wl [] wl' (by decide)⟩

/-- Claim C8: a tileset record carrying an external source reference and an
explicit nonzero `FirstGlobalID` keeps that `FirstGlobalID` after the merge,
overriding whatever the external document declares. -/
theorem external_firstgid_preserved (ref ext : Tileset) (hsrc : ref.source ≠ "")
    (hfg : ref.firstGlobalID ≠ 0) (t : Tileset)
    (h : tilesetUnmarshalMerge ref ext = .ok t) :
    t.firstGlobalID = ref.firstGlobalID := by
  rw [tilesetUnmarshalMerge, if_neg hsrc] at h
  simp only [if_pos hfg] at h
  split at h
  · injection h with h'; exact h' ▸ rfl
  · split at h
    · exact Except.noConfusion h
    · split at h
      · injection h with h'; exact h' ▸ rfl
      · exact Except.noConfusion h

/-- Witness for C8: explicit `firstGlobalID=5` against an external document
declaring start 1 yields effective `FirstGlobalID=5`. -/
theorem external_firstgid_preserved_witness :
    refTs.source ≠ "" ∧ refTs.firstGlobalID ≠ 0 ∧
    tilesetUnmarshalMerge refTs extTs = .ok { extTs with firstGlobalID := 5 } ∧
    ({ extTs with firstGlobalID := 5 } : Tileset).firstGlobalID = refTs.firstGlobalID :=
  ⟨by decide, by decide, by decide,
    external_firstgid_preserved refTs extTs (by decide) (by decide) _ (by decide)⟩

/-- Claim C2 (the code at the failing input): the template merge of
`Object.UnmarshalXML` never consults the loaded template — it is the identity
on the decoded object — so an object with no name keeps the empty name
instead of adopting the template's `"Default"`. -/
theorem object_template_merge_ignores_template :
    (∀ (o : Object) (tpl : Template), objectUnmarshalMerge o tpl = o) ∧
    (objectUnmarshalMerge exObjNoName exTemplate).name = "" := by
  have hall : ∀ (o : Object) (tpl : Template), objectUnmarshalMerge o tpl = o := by
    intro o tpl
    simp only [objectUnmarshalMerge]
    simp only [Object.eta, ite_self]
  exact ⟨hall, by rw [hall]; rfl⟩

/-- Claim C3, counterexample: two decodes with identical inputs (same file
system, same relative source, started from the same zero state) resolve
different external documents when the ambient global `ResourcePath` was left
by `New` calls on maps in different directories. -/
theorem resource_path_counterexample :
    newEffect "a/m.tmx" (GoGlobalState.mk "") ≠ newEffect "b/m.tmx" (GoGlobalState.mk "") ∧
    loadExternalTileset exFS (newEffect "a/m.tmx" (GoGlobalState.mk "")) "t.tsx" ≠
      loadExternalTileset exFS (newEffect "b/m.tmx" (GoGlobalState.mk "")) "t.tsx" := by
  constructor
  · decide
  · decide

/-- Claim C3, amended: external-reference resolution is a function of the
ambient process-wide `ResourcePath` global (plus the file system and the
source string) — decodes agree exactly as far as their ambient
`ResourcePath` agrees, and the global is shared between decodes rather than
passed per decode. -/
theorem resource_path_determines_resolution (fs : String → Option Tileset)
    (st1 st2 : GoGlobalState) (source : String)
    (h : st1.resourcePath = st2.resourcePath) :
    loadExternalTileset fs st1 source = loadExternalTileset fs st2 source := by
  simp [loadExternalTileset, externalRefPath, pathJoin, h]

/-- Witness for the amended C3 at a concrete state. -/
theorem resource_path_determines_resolution_witness :
    (GoGlobalState.mk "a").resourcePath = (GoGlobalState.mk "a").resourcePath ∧
    loadExternalTileset exFS (GoGlobalState.mk "a") "t.tsx" =
      loadExternalTileset exFS (GoGlobalState.mk "a") "t.tsx" :=
  ⟨rfl, resource_path_determines_resolution exFS (GoGlobalState.mk "a")
    (GoGlobalState.mk "a") "t.tsx" rfl⟩

end Tiled
